import Mathlib

/-!
Verification of the gibson cache server core (`src/gibson.c`): the cron
sweeps (TTL expiry and pressure eviction), signal handling and shutdown,
the accept/read/write handlers and their client state machine, the startup
clamp of the memory budget, and the cached-timestamp discipline.  All
definitions are shallow embeddings of the C functions of `gibson.c`;
functions that live in files not shipped with the repository (atree.c,
client.c, query.c) are modelled from the specification and say so in their
doc comments.
-/

namespace Gibson

/-- An item stored in the trie: the `gbItem` fields that `gibson.c` reads —
`ttl`, the creation time `time` and `last_access_time` (seconds as
integers, `time_t`) — plus `size`, modelled from the spec: the bytes the
item accounts for in `mem_used` (payload plus fixed overhead), which the
counted allocator shim subtracts when `gbDestroyItem` (item.c, not among
the source files) frees the item. -/
structure GbItem where
  ttl : Int
  time : Int
  last_access_time : Int
  size : Nat
deriving DecidableEq

/-- Modelled from the spec: `at_recurse` (defined in atree.c, which is not
among the source files) performs a depth-first traversal applying the
visitor to every node of the trie; a visitor may empty the marker of the
visited node.  We model the trie by the list of the markers of its nodes in
visit order, and a visitor by its effect on one marker. -/
def at_recurse (visit : Option GbItem → Option GbItem)
    (tree : List (Option GbItem)) : List (Option GbItem) :=
  tree.map visit

/-- The bytes a marker accounts for in `mem_used`: the size of its item, or
0 for a markerless node. -/
def markerBytes : Option GbItem → Nat
  | some item => item.size
  | none => 0

/-- Modelled from the spec: the bytes a sweep releases — each marker the
visitor clears is freed by `gbDestroyItem` (item.c, not among the source
files), and the counted allocator shim subtracts its bytes from
`stats.memused` as the traversal runs. -/
def sweepFreedBytes (visit : Option GbItem → Option GbItem)
    (tree : List (Option GbItem)) : Nat :=
  (tree.map fun m => if visit m = none then markerBytes m else 0).sum

/-- Body of `gbMemoryFreeHandler` (gibson.c lines 464-475): computes
`eta = server->stats.time - item->last_access_time` (0 when the node has no
marker) and removes the item (`GB_DEL_ITEM`, clearing the marker) when the
C guard `eta && eta >= server->gc_ratio` holds, that is when `eta` is
nonzero and at least `gc_ratio`. -/
def gbMemoryFreeHandler (stime gc_ratio : Int) (marker : Option GbItem) :
    Option GbItem :=
  let eta : Int :=
    match marker with
    | some item => stime - item.last_access_time
    | none => 0
  if eta ≠ 0 ∧ gc_ratio ≤ eta then none else marker

/-- Body of `gbHandleDeadTTLHandler` (gibson.c lines 477-488): computes
`eta = server->stats.time - item->time` and removes the item when the node
has a marker with `item->ttl > 0` and `eta >= item->ttl`. -/
def gbHandleDeadTTLHandler (stime : Int) (marker : Option GbItem) :
    Option GbItem :=
  let eta : Int :=
    match marker with
    | some item => stime - item.time
    | none => 0
  match marker with
  | some item => if 0 < item.ttl ∧ item.ttl ≤ eta then none else some item
  | none => none

/-- The `CRON_EVERY(_ms_)` macro (gibson.c line 490): the guarded block runs
when `_ms_ <= server->cronperiod` or
`server->stats.crondone % (_ms_ / server->cronperiod) == 0`.  Division and
modulus are the Lean total operations on `Nat`; the C source divides by the
configured `cron_period`, positive by default. -/
def CRON_EVERY (ms period done : Nat) : Bool :=
  decide (ms ≤ period) || decide (done % (ms / period) = 0)

/-- The server fields that the handlers of `gibson.c` read and write:
`stats.time`, `stats.memused`, `stats.crondone`, `cronperiod`,
`limits.maxmem`, `gc_ratio`, the `shutdown` flag, and the trie as its list
of markers (see `at_recurse`). -/
structure GbServerState where
  stats_time : Int
  memused : Nat
  crondone : Nat
  cronperiod : Nat
  maxmem : Nat
  gc_ratio : Int
  shutdown : Bool
  tree : List (Option GbItem)
deriving DecidableEq

/-- `gbServerDestroy` (gibson.c lines 686-715) tears down the clients, the
scratch buffers, the trie and the event loop, and ends with `exit( 0 )`. -/
def gbServerDestroyExitCode : Int := 0

/-- Outcome of one cron tick: the process exited (through `gbServerDestroy`)
with the given status, or the server continues and the handler returns the
next delay in milliseconds. -/
inductive CronOut
  | exited (code : Int)
  | next (s : GbServerState) (periodMs : Nat)
deriving DecidableEq

/-- `gbServerCronHandler` (gibson.c lines 492-562): refresh `stats.time`
from `time(NULL)` (the `now` argument); if the `shutdown` flag is set call
`gbServerDestroy`, which exits; every 15 s sweep expired TTLs over the
whole trie; every 5 s, when `memused > maxmem`, run the pressure-eviction
sweep; finally increment `stats.crondone` and return `cronperiod`.  Each
sweep also lowers `memused` by the bytes of the items it destroys
(`sweepFreedBytes`, the shim accounting of `gbDestroyItem`), so the
pressure check at gibson.c line 524 reads the `memused` left by the TTL
sweep of the same tick, exactly as in the C source. -/
def gbServerCronHandler (s0 : GbServerState) (now : Int) : CronOut :=
  let s1 := { s0 with stats_time := now }
  if s1.shutdown then CronOut.exited gbServerDestroyExitCode
  else
    let s2 :=
      if CRON_EVERY 15000 s1.cronperiod s1.crondone then
        { s1 with
          tree := at_recurse (gbHandleDeadTTLHandler s1.stats_time) s1.tree
          memused := s1.memused
            - sweepFreedBytes (gbHandleDeadTTLHandler s1.stats_time) s1.tree }
      else s1
    let s3 :=
      if CRON_EVERY 5000 s2.cronperiod s2.crondone ∧ s2.maxmem < s2.memused then
        { s2 with
          tree := at_recurse (gbMemoryFreeHandler s2.stats_time s2.gc_ratio)
                    s2.tree
          memused := s2.memused
            - sweepFreedBytes (gbMemoryFreeHandler s2.stats_time s2.gc_ratio)
                s2.tree }
      else s2
    CronOut.next { s3 with crondone := s3.crondone + 1 } s3.cronperiod

/-- The server time after a cron tick, when the server survived it. -/
def CronOut.statsTime : CronOut → Option Int
  | CronOut.exited _ => none
  | CronOut.next s _ => some s.stats_time

/-- The trie after a cron tick, when the server survived it. -/
def CronOut.treeOf : CronOut → Option (List (Option GbItem))
  | CronOut.exited _ => none
  | CronOut.next s _ => some s.tree

/-- The completed-tick counter after a cron tick, when the server survived
it. -/
def CronOut.crondoneOf : CronOut → Option Nat
  | CronOut.exited _ => none
  | CronOut.next s _ => some s.crondone

/-- The signals for which `gbProcessInit` (gibson.c lines 659-663) installs
`gbSignalHandler`. -/
inductive GbSignal
  | sigterm
  | sigsegv
  | sigill
  | sigfpe
  | sigabrt
deriving DecidableEq

/-- `gbSignalHandler` (gibson.c lines 592-642): on SIGTERM it only sets the
`shutdown` flag and returns; on every other handled signal it logs
diagnostics and calls `exit(-1)`.  The result pairs the new server state
with the immediate exit status, if any. -/
def gbSignalHandler (s : GbServerState) (sig : GbSignal) :
    GbServerState × Option Int :=
  match sig with
  | GbSignal.sigterm => ({ s with shutdown := true }, none)
  | _ => (s, some (-1))

/-- The client protocol states `STATUS_WAITING_SIZE`,
`STATUS_WAITING_BUFFER` and `STATUS_SENDING_REPLY`. -/
inductive ClientStatus
  | waitingSize
  | waitingBuffer
  | sendingReply
deriving DecidableEq

/-- The `gbClient` fields used by the read and write handlers: the protocol
status, the progress counters `read` and `wrote`, the 4-byte request size
field `buffer_size` (by its unsigned value), the request buffer (by its
allocated size, `none` before allocation), the last-seen stamp `seen` and
the per-client `shutdown` flag. -/
structure GbClient where
  status : ClientStatus
  read : Nat
  wrote : Nat
  buffer_size : Nat
  buffer : Option Nat
  seen : Int
  shutdown : Bool
deriving DecidableEq

/-- Where a `read(2)` issued by `gbReadQueryHandler` lands: at a byte offset
from the start of the `buffer_size` field, or at an offset inside the
request buffer. -/
inductive Dest
  | sizeField (byteOff : Nat)
  | reqBuffer (off : Nat)
deriving DecidableEq

/-- What the `read`/`write` system call returns, as the handlers classify
it: `ok n` for n bytes transferred, `EAGAIN`, a peer close (return value 0),
or any other error. -/
inductive IoRet
  | ok (n : Nat)
  | eagain
  | closedConn
  | errOther
deriving DecidableEq

/-- Outcome of one `gbReadQueryHandler` invocation: the client was
destroyed, or lives on as `c`; `performed` records the requested byte count
and destination of the read the handler issued, when it issued one. -/
inductive ReadOut
  | destroyed
  | alive (c : GbClient) (performed : Option (Nat × Dest))
deriving DecidableEq

/-- The read target while waiting for the size prefix (gibson.c line 353):
`p = (byte_t *)( &client->buffer_size + client->read )`.  The sum is
pointer arithmetic on a pointer to `int`, so `client->read` is scaled by
`sizeof(int) = 4`: the destination is byte offset `4 * read` from the start
of the field, not byte offset `read`. -/
def gbReadTargetSize (read : Nat) : Dest := Dest.sizeField (read * 4)

/-- One invocation of `gbReadQueryHandler` (gibson.c lines 342-423), with
`maxrequestsize = server->limits.maxrequestsize` and
`stime = server->stats.time`.  `rr` is what the `read(2)` call returns when
the handler issues one; `queryOk` is whether `gbProcessQuery` (query.c, not
among the source files) succeeds.  The three phases of the C function are
mirrored in order: the WAITING_SIZE block, whose completion branch
validates `sizeof(short) <= buffer_size <= maxrequestsize` (destroying the
client otherwise) and allocates the request buffer; the WAITING_BUFFER
block; the read itself with its EAGAIN, close and error cases; then the
progress and `seen` update and the complete-request dispatch.  When the
entry status is SENDING_REPLY the C code adds an uninitialized `nread`;
that unreachable-by-contract path is modelled as adding 0. -/
def gbReadQueryHandler (maxrequestsize : Nat) (stime : Int) (c0 : GbClient)
    (rr : IoRet) (queryOk : Bool) : ReadOut :=
  let step1 : Option (GbClient × Option (Nat × Dest)) :=
    if c0.status = ClientStatus.waitingSize then
      if c0.read < 4 then
        some (c0, some (4 - c0.read, gbReadTargetSize c0.read))
      else
        let c1 : GbClient :=
          { c0 with read := 0, status := ClientStatus.waitingBuffer }
        if maxrequestsize < c1.buffer_size ∨ c1.buffer_size < 2 then none
        else some ({ c1 with buffer := some c1.buffer_size }, none)
    else some (c0, none)
  match step1 with
  | none => ReadOut.destroyed
  | some (c1, pend1) =>
    let step2 : GbClient × Option (Nat × Dest) :=
      if c1.status = ClientStatus.waitingBuffer then
        if c1.read < c1.buffer_size then
          (c1, some (c1.buffer_size - c1.read, Dest.reqBuffer c1.read))
        else ({ c1 with read := 0, status := ClientStatus.sendingReply }, none)
      else (c1, pend1)
    let c2 := step2.1
    let pend2 := step2.2
    let step3 : Option (Nat × Option (Nat × Dest)) :=
      if c2.status ≠ ClientStatus.sendingReply then
        match pend2, rr with
        | some pd, IoRet.ok n => some (n, some pd)
        | some pd, IoRet.eagain => some (0, some pd)
        | some _, IoRet.closedConn => none
        | some _, IoRet.errOther => none
        | none, _ => some (0, none)
      else some (0, none)
    match step3 with
    | none => ReadOut.destroyed
    | some (nread, performed) =>
      let c3 : GbClient := { c2 with read := c2.read + nread, seen := stime }
      if c3.status = ClientStatus.waitingBuffer ∧ c3.read = c3.buffer_size then
        let c4 : GbClient := { c3 with status := ClientStatus.sendingReply }
        if queryOk then ReadOut.alive c4 performed else ReadOut.destroyed
      else ReadOut.alive c3 performed

/-- Modelled from the spec: `gbClientReset` (client.c, not among the source
files) returns the client to WAITING_SIZE with cleared progress counters
and a freed request buffer, ready for the next size prefix. -/
def gbClientReset (c : GbClient) : GbClient :=
  { c with
    status := ClientStatus.waitingSize
    read := 0
    wrote := 0
    buffer := none
    buffer_size := 0 }

/-- Outcome of one `gbWriteReplyHandler` invocation: the client was
destroyed, or lives on as `c`; `writableDeleted` records whether the
handler unregistered the writable file event of the client
(`gbDeleteFileEvent(..., GB_WRITABLE)`). -/
inductive WriteOut
  | destroyed
  | alive (c : GbClient) (writableDeleted : Bool)
deriving DecidableEq

/-- One invocation of `gbWriteReplyHandler` (gibson.c lines 297-340), with
`stime = server->stats.time` and `wr` what `write(2)` returns: on EAGAIN
nothing changes and the writable event stays registered; on a peer close or
another error the client is destroyed; on `ok n` the progress cursor and
`seen` advance and, when the whole `buffer_size` has been written, the
client is destroyed if its `shutdown` flag is set and otherwise reset
(`gbClientReset`) with its writable event deleted.  A client found in any
state but SENDING_REPLY is destroyed. -/
def gbWriteReplyHandler (stime : Int) (c : GbClient) (wr : IoRet) : WriteOut :=
  if c.status = ClientStatus.sendingReply then
    match wr with
    | IoRet.eagain => WriteOut.alive c false
    | IoRet.closedConn => WriteOut.destroyed
    | IoRet.errOther => WriteOut.destroyed
    | IoRet.ok n =>
      let c1 : GbClient := { c with wrote := c.wrote + n, seen := stime }
      if c1.wrote = c1.buffer_size then
        if c1.shutdown then WriteOut.destroyed
        else WriteOut.alive (gbClientReset c1) true
      else WriteOut.alive c1 false
  else WriteOut.destroyed

/-- What one `gbAcceptHandler` invocation did: whether it called `close` on
the accepted descriptor, whether it called `gbClientCreate`, and whether it
registered a readable file event for the descriptor. -/
structure AcceptOutcome where
  fdClosed : Bool
  clientCreated : Bool
  readableRegistered : Bool
deriving DecidableEq

/-- One invocation of `gbAcceptHandler` (gibson.c lines 425-460).
`accepted` is the descriptor returned by `gbNetTcpAccept` or
`gbNetUnixAccept` (`none` on accept error, which only logs and returns).
When `stats.nclients >= limits.maxclients` the handler closes the new
descriptor and logs a drop, but does not return: the following
`client_fd != -1` block still runs, creating the client and registering the
readable event.  `registerOk` tells whether `gbCreateFileEvent` succeeds;
on failure the freshly created client is destroyed and the descriptor
closed. -/
def gbAcceptHandler (nclients maxclients : Nat) (accepted : Option Nat)
    (registerOk : Bool) : AcceptOutcome :=
  match accepted with
  | none =>
    { fdClosed := false, clientCreated := false, readableRegistered := false }
  | some _ =>
    let overLimit := decide (maxclients ≤ nclients)
    if registerOk then
      { fdClosed := overLimit, clientCreated := true,
        readableRegistered := true }
    else
      { fdClosed := true, clientCreated := true, readableRegistered := false }

/-- The startup clamp of `max_memory` (gibson.c lines 195-203): when the
configured `maxmem` exceeds `zmem_available()` the limit drops to
`memavail / 2`; otherwise it is kept unchanged. -/
def gbClampMaxMem (maxmem memavail : Nat) : Nat :=
  if memavail < maxmem then memavail / 2 else maxmem

/-- The `seen` stamp of the surviving client after a read, if it survived. -/
def ReadOut.seenOf : ReadOut → Option Int
  | ReadOut.destroyed => none
  | ReadOut.alive c _ => some c.seen

/-- The `seen` stamp of the surviving client after a write, if it
survived. -/
def WriteOut.seenOf : WriteOut → Option Int
  | WriteOut.destroyed => none
  | WriteOut.alive c _ => some c.seen

/-- A visitor that keeps markerless nodes markerless commutes with indexed
access into the swept trie: the sweep visits every node independently. -/
theorem at_recurse_getD (visit : Option GbItem → Option GbItem)
    (h0 : visit none = none) (tree : List (Option GbItem)) (i : Nat) :
    (at_recurse visit tree).getD i none = visit (tree.getD i none) := by
  induction tree generalizing i with
  | nil => simp [at_recurse, h0]
  | cons a t ih =>
    cases i with
    | zero => simp [at_recurse]
    | succ j => simpa [at_recurse] using ih j

/-- An item whose idle age at server time 7 is exactly zero. -/
def itemIdleZero : GbItem :=
  { ttl := 0, time := 0, last_access_time := 7, size := 3 }

/-- A small concrete server state used to instantiate theorems. -/
def serverA : GbServerState :=
  { stats_time := 0, memused := 0, crondone := 0, cronperiod := 100,
    maxmem := 1000, gc_ratio := 0, shutdown := false, tree := [] }

/-- Claim C1, counterexample: with `gc_ratio = 0` and an item whose idle age
`stats.time - last_access_time` is exactly 0, the idle age is at least
`gc_ratio` and yet `gbMemoryFreeHandler` keeps the item, because the C guard
`eta && eta >= server->gc_ratio` requires a nonzero idle age. -/
theorem pressure_eviction_keeps_idle_zero :
    (0 : Int) ≤ (7 : Int) - itemIdleZero.last_access_time ∧
    gbMemoryFreeHandler 7 0 (some itemIdleZero) = some itemIdleZero := by
  constructor
  · decide
  · decide

/-- Claim C1 (amended): during the pressure-eviction sweep an item is
deleted exactly when its idle age `stats.time - last_access_time` is
nonzero and at least `gc_ratio` (so an item with idle age exactly 0
survives even when `gc_ratio = 0`); a markerless node stays markerless; the
sweep applies the handler to every node of the trie; and the eviction sweep
does not run on a tick where `memused` does not exceed `maxmem`. -/
theorem pressure_eviction_deletes_iff (stime gc : Int) (item : GbItem)
    (tree : List (Option GbItem)) (i : Nat) (s : GbServerState) (now : Int) :
    (gbMemoryFreeHandler stime gc (some item) =
      if stime - item.last_access_time ≠ 0 ∧ gc ≤ stime - item.last_access_time
      then none else some item)
    ∧ gbMemoryFreeHandler stime gc none = none
    ∧ (at_recurse (gbMemoryFreeHandler stime gc) tree).getD i none
        = gbMemoryFreeHandler stime gc (tree.getD i none)
    ∧ CronOut.treeOf (gbServerCronHandler
        { s with shutdown := false, memused := s.maxmem } now)
        = some (if CRON_EVERY 15000 s.cronperiod s.crondone then
                  at_recurse (gbHandleDeadTTLHandler now) s.tree
                else s.tree) := by
  refine ⟨rfl, by simp [gbMemoryFreeHandler], ?_, ?_⟩
  · exact at_recurse_getD _ (by simp [gbMemoryFreeHandler]) tree i
  · by_cases h15 : CRON_EVERY 15000 s.cronperiod s.crondone
    · have hle : ¬ s.maxmem
          < s.maxmem - sweepFreedBytes (gbHandleDeadTTLHandler now) s.tree :=
        Nat.not_lt.mpr (Nat.sub_le _ _)
      simp [gbServerCronHandler, h15, hle, CronOut.treeOf]
    · simp [gbServerCronHandler, h15, CronOut.treeOf]

/-- Claim C2: the TTL sweep applies `gbHandleDeadTTLHandler` to every node
of the trie and deletes exactly the items with `ttl > 0` and
`stats.time - created_at >= ttl`; items with `ttl = 0` or age strictly
below `ttl` are left untouched; and on a tick that passes the 15 s gate
with no memory pressure, the cron leaves the trie equal to the sweep taken
at the server time `now` recorded at the start of the tick. -/
theorem ttl_sweep_deletes_iff (stime : Int) (item : GbItem)
    (tree : List (Option GbItem)) (i : Nat) (s : GbServerState) (now : Int) :
    (gbHandleDeadTTLHandler stime (some item) =
      if 0 < item.ttl ∧ item.ttl ≤ stime - item.time
      then none else some item)
    ∧ gbHandleDeadTTLHandler stime none = none
    ∧ (at_recurse (gbHandleDeadTTLHandler stime) tree).getD i none
        = gbHandleDeadTTLHandler stime (tree.getD i none)
    ∧ CronOut.treeOf (gbServerCronHandler
        { s with shutdown := false, crondone := 0, memused := 0 } now)
        = some (at_recurse (gbHandleDeadTTLHandler now) s.tree) := by
  refine ⟨rfl, rfl, ?_, ?_⟩
  · exact at_recurse_getD _ rfl tree i
  · simp [gbServerCronHandler, CRON_EVERY, CronOut.treeOf]

/-- Claim C3, counterexample: after SIGTERM sets the shutdown flag, the next
cron tick runs `gbServerDestroy`, and the process terminates with exit
status 0 — not with a non-zero status. -/
theorem sigterm_shutdown_exits_zero :
    gbServerCronHandler ((gbSignalHandler serverA GbSignal.sigterm).1) 5
      = CronOut.exited 0 := by decide

/-- Claim C3 (amended): SIGTERM sets the shutdown flag and the cron-driven
destructor path then terminates the process with exit status 0; the other
handled fatal signals (SIGSEGV, SIGILL, SIGFPE, SIGABRT) exit immediately
with the non-zero status -1. -/
theorem signal_termination_exit_status (s : GbServerState) (now : Int) :
    (gbSignalHandler s GbSignal.sigterm).1.shutdown = true
    ∧ gbServerCronHandler ((gbSignalHandler s GbSignal.sigterm).1) now
        = CronOut.exited gbServerDestroyExitCode
    ∧ gbServerDestroyExitCode = 0
    ∧ (gbSignalHandler s GbSignal.sigsegv).2 = some (-1)
    ∧ (gbSignalHandler s GbSignal.sigill).2 = some (-1)
    ∧ (gbSignalHandler s GbSignal.sigfpe).2 = some (-1)
    ∧ (gbSignalHandler s GbSignal.sigabrt).2 = some (-1)
    ∧ (-1 : Int) ≠ 0 := by
  refine ⟨rfl, ?_, rfl, rfl, rfl, rfl, rfl, by decide⟩
  simp [gbSignalHandler, gbServerCronHandler]

/-- Claim C4: at the failing input (one connected client, `max_clients = 1`,
a freshly accepted descriptor, event registration succeeding) the accept
handler closes the new descriptor and nevertheless creates a client object
and registers a readable file event for it: the over-limit branch of
`gbAcceptHandler` has no early return. -/
theorem accept_over_limit_still_creates_client :
    gbAcceptHandler 1 1 (some 5) true
      = { fdClosed := true, clientCreated := true,
          readableRegistered := true } := by decide

/-- Claim C5: for a client in WAITING_SIZE whose 4-byte size prefix has been
fully read, the handler destroys the client exactly when the announced size
is below `sizeof(short) = 2` or above `maxrequestsize` (for any result of a
subsequent socket read, an invalid size destroys it before reading);
otherwise a request buffer of exactly `buffer_size` bytes is allocated and
the client moves to WAITING_BUFFER. -/
theorem size_completion_validates (maxrequestsize : Nat) (stime : Int)
    (c : GbClient) (rr : IoRet) (queryOk : Bool)
    (hs : c.status = ClientStatus.waitingSize) (hr : c.read = 4) :
    (c.buffer_size < 2 ∨ maxrequestsize < c.buffer_size →
      gbReadQueryHandler maxrequestsize stime c rr queryOk = ReadOut.destroyed)
    ∧ (gbReadQueryHandler maxrequestsize stime c IoRet.eagain queryOk
          = ReadOut.destroyed
        ↔ c.buffer_size < 2 ∨ maxrequestsize < c.buffer_size)
    ∧ (2 ≤ c.buffer_size → c.buffer_size ≤ maxrequestsize →
        gbReadQueryHandler maxrequestsize stime c IoRet.eagain queryOk
          = ReadOut.alive
              { c with read := 0, status := ClientStatus.waitingBuffer,
                       buffer := some c.buffer_size, seen := stime }
              (some (c.buffer_size, Dest.reqBuffer 0))) := by
  obtain ⟨st, rd, wr, bs, bf, sn, sd⟩ := c
  simp only [GbClient.mk.injEq] at hs hr ⊢
  subst hs
  subst hr
  by_cases hbad : maxrequestsize < bs ∨ bs < 2
  · refine ⟨fun _ => ?_, ?_, ?_⟩
    · simp [gbReadQueryHandler, hbad]
    · simp [gbReadQueryHandler, hbad]
      tauto
    · intro h2 hmax
      rcases hbad with h | h
      · exact absurd hmax (by omega)
      · exact absurd h2 (by omega)
  · push_neg at hbad
    obtain ⟨hmax, h2⟩ := hbad
    have hno : ¬ (maxrequestsize < bs ∨ bs < 2) := by omega
    have hpos : 0 < bs := by omega
    have hne : ¬ bs = 0 := by omega
    have hzb : ¬ (0 = bs) := by omega
    refine ⟨fun h => ?_, ?_, fun _ _ => ?_⟩
    · exact absurd h (by omega)
    · simp [gbReadQueryHandler, hno, hpos, hne, hzb]
      omega
    · simp [gbReadQueryHandler, hno, hpos, hne, hzb]

/-- A client one byte into the size prefix, used to instantiate the read
handler theorems at a concrete input. -/
def clientOneByte : GbClient :=
  { status := ClientStatus.waitingSize, read := 1, wrote := 0,
    buffer_size := 0, buffer := none, seen := 5, shutdown := false }

/-- A client whose 4-byte size prefix announces 10 bytes, used to
instantiate the read handler theorems at a concrete input. -/
def clientSizeRead : GbClient :=
  { status := ClientStatus.waitingSize, read := 4, wrote := 0,
    buffer_size := 10, buffer := none, seen := 0, shutdown := false }

/-- Claim C5, witness: the size-completion theorem at the concrete client
`clientSizeRead` with `maxrequestsize = 100`. -/
theorem size_completion_validates_witness :
    (clientSizeRead.buffer_size < 2 ∨ 100 < clientSizeRead.buffer_size →
      gbReadQueryHandler 100 3 clientSizeRead IoRet.eagain true
        = ReadOut.destroyed)
    ∧ (gbReadQueryHandler 100 3 clientSizeRead IoRet.eagain true
          = ReadOut.destroyed
        ↔ clientSizeRead.buffer_size < 2 ∨ 100 < clientSizeRead.buffer_size)
    ∧ (2 ≤ clientSizeRead.buffer_size → clientSizeRead.buffer_size ≤ 100 →
        gbReadQueryHandler 100 3 clientSizeRead IoRet.eagain true
          = ReadOut.alive
              { clientSizeRead with
                  read := 0, status := ClientStatus.waitingBuffer,
                  buffer := some clientSizeRead.buffer_size, seen := 3 }
              (some (clientSizeRead.buffer_size, Dest.reqBuffer 0))) :=
  size_completion_validates 100 3 clientSizeRead IoRet.eagain true rfl rfl

/-- Claim C6: at the failing input (a client in WAITING_SIZE with one byte
of the size prefix already read), the next read issued by the handler
targets byte offset 4 from the start of the `buffer_size` field, because
`&client->buffer_size + client->read` scales `read` by `sizeof(int)` — not
byte offset 1 as byte-wise little-endian accumulation requires. -/
theorem size_accumulation_offset_bug :
    gbReadQueryHandler 100 0 clientOneByte IoRet.eagain true
      = ReadOut.alive { clientOneByte with seen := 0 }
          (some (3, Dest.sizeField 4))
    ∧ gbReadTargetSize 1 = Dest.sizeField 4
    ∧ (4 : Nat) ≠ 1 := by decide

/-- Claim C7: in the write handler, when the cumulative bytes written reach
`buffer_size`, the client is destroyed if its shutdown flag is set and is
otherwise reset to WAITING_SIZE with the writable file event of its
descriptor unregistered; a write that leaves the reply partially unsent,
and an EAGAIN, keep the client alive without unregistering the writable
event. -/
theorem write_completion_resets (stime : Int) (c : GbClient) (n m : Nat)
    (hs : c.status = ClientStatus.sendingReply)
    (hc : c.wrote + n = c.buffer_size) :
    gbWriteReplyHandler stime c (IoRet.ok n)
      = (if c.shutdown then WriteOut.destroyed
         else WriteOut.alive
                (gbClientReset { c with wrote := c.wrote + n, seen := stime })
                true)
    ∧ (gbClientReset { c with wrote := c.wrote + n, seen := stime }).status
        = ClientStatus.waitingSize
    ∧ (c.wrote + m < c.buffer_size →
        gbWriteReplyHandler stime c (IoRet.ok m)
          = WriteOut.alive { c with wrote := c.wrote + m, seen := stime } false)
    ∧ gbWriteReplyHandler stime c IoRet.eagain = WriteOut.alive c false := by
  refine ⟨?_, rfl, fun hm => ?_, ?_⟩
  · simp [gbWriteReplyHandler, hs, hc]
  · have hne : ¬ c.wrote + m = c.buffer_size := by omega
    simp [gbWriteReplyHandler, hs, hne]
  · simp [gbWriteReplyHandler, hs]

/-- A client mid-reply, used to instantiate the write handler theorem at a
concrete input. -/
def clientReplying : GbClient :=
  { status := ClientStatus.sendingReply, read := 0, wrote := 3,
    buffer_size := 5, buffer := some 5, seen := 0, shutdown := false }

/-- Claim C7, witness: the write-completion theorem at the concrete client
`clientReplying`, a completing write of 2 bytes and a partial write of 1. -/
theorem write_completion_resets_witness :
    gbWriteReplyHandler 9 clientReplying (IoRet.ok 2)
      = (if clientReplying.shutdown then WriteOut.destroyed
         else WriteOut.alive
                (gbClientReset
                  { clientReplying with
                      wrote := clientReplying.wrote + 2, seen := 9 })
                true)
    ∧ (gbClientReset
        { clientReplying with
            wrote := clientReplying.wrote + 2, seen := 9 }).status
        = ClientStatus.waitingSize
    ∧ (clientReplying.wrote + 1 < clientReplying.buffer_size →
        gbWriteReplyHandler 9 clientReplying (IoRet.ok 1)
          = WriteOut.alive
              { clientReplying with
                  wrote := clientReplying.wrote + 1, seen := 9 }
              false)
    ∧ gbWriteReplyHandler 9 clientReplying IoRet.eagain
        = WriteOut.alive clientReplying false :=
  write_completion_resets 9 clientReplying 2 1 rfl rfl

/-- Claim C8: at startup, a configured `max_memory` exceeding
`zmem_available()` is clamped to a value not exceeding `zmem_available()`
(the source drops it to half of it), and a configured value not exceeding
the available memory is used unchanged. -/
theorem maxmem_startup_clamp (maxmem memavail : Nat) :
    (memavail < maxmem → gbClampMaxMem maxmem memavail ≤ memavail)
    ∧ (¬ memavail < maxmem → gbClampMaxMem maxmem memavail = maxmem) := by
  constructor
  · intro h
    simp only [gbClampMaxMem, if_pos h]
    exact Nat.div_le_self memavail 2
  · intro h
    simp [gbClampMaxMem, h]

/-- Claim C8, witness: the startup clamp at the concrete configurations
(10, 4) and (3, 4). -/
theorem maxmem_startup_clamp_witness :
    gbClampMaxMem 10 4 ≤ 4 ∧ gbClampMaxMem 3 4 = 3 :=
  ⟨(maxmem_startup_clamp 10 4).1 (by decide),
   (maxmem_startup_clamp 3 4).2 (by decide)⟩

/-- Claim C9: the handlers observe time only through the cached
`stats.time`: the result of a cron tick does not depend on the previously
cached value (it is overwritten with `now` at the start of the tick, and
that refreshed value is what the sweeps read), the surviving server leaves
the tick with `stats.time = now`, and the `seen` stamp of any client
surviving the read handler, or surviving a successful write, equals the
`stats.time` value the handler was given — neither handler consults the
wall clock. -/
theorem cached_time_discipline (s : GbServerState) (now t stime : Int)
    (maxrequestsize : Nat) (c d : GbClient) (rr : IoRet) (queryOk : Bool)
    (n : Nat) :
    gbServerCronHandler s now
      = gbServerCronHandler { s with stats_time := t } now
    ∧ CronOut.statsTime
        (gbServerCronHandler { s with shutdown := false } now) = some now
    ∧ (ReadOut.seenOf (gbReadQueryHandler maxrequestsize stime c rr queryOk)
          = none
        ∨ ReadOut.seenOf (gbReadQueryHandler maxrequestsize stime c rr queryOk)
          = some stime)
    ∧ (WriteOut.seenOf (gbWriteReplyHandler stime d (IoRet.ok n)) = none
        ∨ WriteOut.seenOf (gbWriteReplyHandler stime d (IoRet.ok n))
          = some stime) := by
  refine ⟨rfl, ?_, ?_, ?_⟩
  · unfold gbServerCronHandler
    dsimp only
    repeat' split
    all_goals simp_all [CronOut.statsTime]
  · unfold gbReadQueryHandler
    dsimp only
    repeat' split
    all_goals simp_all [ReadOut.seenOf]
  · unfold gbWriteReplyHandler
    dsimp only
    repeat' split
    all_goals simp_all [WriteOut.seenOf, gbClientReset]

/-- Claim C10: a `CRON_EVERY(N)` gate passes exactly when `N` is at most
`cron_period` or the completed-tick count is congruent to 0 modulo
`N / cron_period` (integer division); the gate always passes when the count
is 0, so every gated sub-task — the TTL sweep and the pressure-eviction
check included — runs on the very first cron tick; a surviving tick
increments `stats.crondone` by exactly one; and on the first tick the trie
comes out TTL-swept and then, exactly when the `memused` left by that TTL
sweep still exceeds `maxmem` (the pressure check at gibson.c line 524 runs
after the sweep of lines 510-519 has released the expired bytes),
eviction-swept as well. -/
theorem cron_every_gating (ms period done : Nat) (s : GbServerState)
    (now : Int) :
    (CRON_EVERY ms period done = true
      ↔ ms ≤ period ∨ done % (ms / period) = 0)
    ∧ CRON_EVERY ms period 0 = true
    ∧ CronOut.crondoneOf
        (gbServerCronHandler { s with shutdown := false } now)
        = some (s.crondone + 1)
    ∧ CronOut.treeOf
        (gbServerCronHandler { s with shutdown := false, crondone := 0 } now)
        = some
          (if s.maxmem
              < s.memused
                - sweepFreedBytes (gbHandleDeadTTLHandler now) s.tree then
             at_recurse (gbMemoryFreeHandler now s.gc_ratio)
               (at_recurse (gbHandleDeadTTLHandler now) s.tree)
           else at_recurse (gbHandleDeadTTLHandler now) s.tree) := by
  refine ⟨?_, ?_, ?_, ?_⟩
  · simp [CRON_EVERY]
  · simp [CRON_EVERY]
  · unfold gbServerCronHandler
    dsimp only
    repeat' split
    all_goals simp_all [CronOut.crondoneOf]
  · by_cases hp : s.maxmem
        < s.memused - sweepFreedBytes (gbHandleDeadTTLHandler now) s.tree
      <;> simp [gbServerCronHandler, CRON_EVERY, CronOut.treeOf, hp]

end Gibson
